import Mathlib

/-
Verification of the localtuya climate platform
(custom_components/localtuya/climate.py).

The file shallowly embeds the decode/encode mapping engine of the
platform: the DP-snapshot decoder of `status_updated`, the mode/preset
encoder of `async_set_hvac_mode` / `async_set_preset_mode`, the
temperature scaling of `status_updated` / `async_set_temperature`, and
the hysteresis logic of the `hvac_action` property.  Python dictionaries
become association lists (insertion order preserved, as in Python 3.7+),
Python values of type bool/str/int become the inductive `Value`, Python
`==` (which identifies `True` with `1` and `False` with `0`) becomes
`pyEq`, and Python numbers in the temperature path are idealised as
exact rationals.
-/

/-- A value carried by a Tuya datapoint: Python bool, str or int
(the three value types the platform's snapshots and tables use). -/
inductive Value where
  | b : Bool → Value
  | s : String → Value
  | i : Int → Value
deriving DecidableEq, Repr

/-- The runtime type tag of a `Value` (Python `type(v)`). -/
inductive VType where
  | bool | str | int
deriving DecidableEq, Repr

/-- Python `type(v)` restricted to the three snapshot value types. -/
def typeOf : Value → VType
  | .b _ => .bool
  | .s _ => .str
  | .i _ => .int

/-- Python `==` on snapshot values.  Within one type it is ordinary
equality; across bool and int Python coerces the bool (`True == 1`,
`False == 0` hold); all other cross-type comparisons are unequal. -/
def pyEq : Value → Value → Bool
  | .b x, .b y => x == y
  | .s x, .s y => x == y
  | .i x, .i y => x == y
  | .b x, .i y => (if x then (1 : Int) else 0) == y
  | .i x, .b y => x == (if y then (1 : Int) else 0)
  | _, _ => false

/-- The bool/int coercion cases of Python `==`: true exactly when the
two values have different types but Python still deems them equal
(`True == 1` or `False == 0`, in either order). -/
def boolIntCoercionEq : Value → Value → Bool
  | .b x, .i y => (if x then (1 : Int) else 0) == y
  | .i x, .b y => x == (if y then (1 : Int) else 0)
  | _, _ => false

/- Constants imported in climate.py from homeassistant
(homeassistant.components.climate.const); their runtime string values. -/

/-- homeassistant constant HVAC_MODE_OFF. -/
def HVAC_MODE_OFF : String := "off"

/-- homeassistant constant HVAC_MODE_HEAT. -/
def HVAC_MODE_HEAT : String := "heat"

/-- homeassistant constant HVAC_MODE_AUTO. -/
def HVAC_MODE_AUTO : String := "auto"

/-- homeassistant constant CURRENT_HVAC_HEAT: the "heating" action. -/
def CURRENT_HVAC_HEAT : String := "heating"

/-- homeassistant constant CURRENT_HVAC_OFF: the action the platform
stores when the target temperature is reached (the spec calls this
semantic state "idle"). -/
def CURRENT_HVAC_OFF : String := "off"

/-- A mode/preset definition: a Python dict `dp_id -> expected value`,
kept as an association list in insertion order (Python 3.7+ dicts
preserve insertion order; keys are unique). -/
abbrev DpDef := List (Nat × Value)

/-- A mode or preset table: a Python dict `name -> definition`,
kept as an association list in insertion order. -/
abbrev Table := List (String × DpDef)

/-- The snapshot slice `alldps` used by the decoder: a Python dict
`dp_id -> value-or-None` (climate.py line 255 stores `self.dps(k)`,
which is `None` when datapoint `k` is unknown). -/
abbrev Snapshot := List (Nat × Option Value)

/-- Python membership `(dp, v) in alldps.items()` for a definition pair:
some snapshot entry has the same key and a `==`-equal value.  A `None`
snapshot value never equals a bool/str/int value. -/
def pairInSnapshot (snap : Snapshot) (p : Nat × Value) : Bool :=
  snap.any (fun q =>
    q.1 == p.1 &&
      match q.2 with
      | some w => pyEq w p.2
      | none => false)

/-- The match test of climate.py lines 258 and 262:
`alldps.items() & d.items() == d.items()`, i.e. every (dp_id, expected
value) pair of the definition is present, `==`-equal, in the snapshot. -/
def matchesDef (snap : Snapshot) (d : DpDef) : Bool :=
  d.all (pairInSnapshot snap)

/-- The decoder loop of climate.py lines 257-259 (and 261-263): walk the
table in declared order, assigning the semantic value on every entry
whose definition fully matches; the previous value survives when no
entry matches, and the last matching entry wins otherwise. -/
def decodeTable (table : Table) (snap : Snapshot) (prev : Option String) :
    Option String :=
  table.foldl (fun acc e => if matchesDef snap e.2 then some e.1 else acc) prev

/-- The built-in `modes` table of climate.py lines 268-280. -/
def modes : Table :=
  [(HVAC_MODE_OFF, [(1, Value.b false)]),
   (HVAC_MODE_HEAT, [(1, Value.b true), (4, Value.s "1")]),
   (HVAC_MODE_AUTO, [(1, Value.b true), (4, Value.s "0")])]

/-- The built-in `presets` table of climate.py lines 291-298. -/
def presets : Table :=
  [("Eco On", [(5, Value.b true)]),
   ("Eco Off", [(5, Value.b false)])]

/-- The dict literal `alldps = {1: self.dps(1), 4: self.dps(4),
5: self.dps(5)}` of climate.py line 255, built from the device's full
DP status `dps`. -/
def alldpsOf (dps : Nat → Option Value) : Snapshot :=
  [(1, dps 1), (4, dps 4), (5, dps 5)]

/-- The semantic state a LocaltuyaClimate instance carries
(climate.py `__init__`, lines 100-109): decoded mode, preset and
action, decoded temperatures, and the two configured precision
multipliers (`_precision` and `_target_temperature_precision`).
All decoded fields start as `None`; temperatures are exact rationals
standing for Python floats. -/
structure ClimateState where
  hvac_mode : Option String
  preset_mode : Option String
  hvac_action : Option String
  current_temperature : Option ℚ
  target_temperature : Option ℚ
  precision : ℚ
  target_temperature_precision : ℚ
deriving DecidableEq, Repr

/-- The mode/preset decoding step of `status_updated`
(climate.py lines 255-263): rebuild `alldps` from the fresh device
status and run the decoder loop over the `modes` and `presets` tables,
each starting from the previously stored semantic value. -/
def status_updated (dps : Nat → Option Value) (st : ClimateState) :
    ClimateState :=
  let alldps := alldpsOf dps
  { st with
      hvac_mode := decodeTable modes alldps st.hvac_mode,
      preset_mode := decodeTable presets alldps st.preset_mode }

/-- The `hvac_action` property of climate.py lines 151-166.  It both
returns the running action and stores it back in `self._hvac_action`,
so it is modelled as returning the read value together with the updated
state.  When the stored mode is HVAC_MODE_HEAT the body runs three
successive (non-exclusive) `if` statements comparing the decoded
temperatures; Python raises a TypeError from the first comparison if
either temperature is still `None`, modelled as `Except.error`.  The
middle branch (`c == t - p`) only re-assigns the action to its current
value, which is kept literally.  In any other mode the stored action is
returned untouched. -/
def hvac_action (st : ClimateState) :
    Except String (Option String × ClimateState) :=
  if st.hvac_mode = some HVAC_MODE_HEAT then
    match st.current_temperature, st.target_temperature with
    | some c, some t =>
        let a := st.hvac_action
        let a := if c < t - st.precision then some CURRENT_HVAC_HEAT else a
        let a :=
          if c = t - st.precision then
            let a1 := if a = some CURRENT_HVAC_HEAT then some CURRENT_HVAC_HEAT else a
            if a1 = some CURRENT_HVAC_OFF then some CURRENT_HVAC_OFF else a1
          else a
        let a := if c + st.precision > t then some CURRENT_HVAC_OFF else a
        Except.ok (a, { st with hvac_action := a })
    | _, _ =>
        Except.error "TypeError: comparison not supported with NoneType"
  else
    Except.ok (st.hvac_action, st)

/-- Python `round`: round half to even (banker's rounding), on an exact
rational standing for a Python number. -/
def pyRound (q : ℚ) : Int :=
  let n := ⌊q⌋
  let r := q - n
  if r < 1 / 2 then n
  else if 1 / 2 < r then n + 1
  else if n % 2 = 0 then n else n + 1

/-- The decode direction of the Temperature Scaler: climate.py lines
244-253 compute `self.dps_conf(...) * precision` from the raw integer
DP value.  Python float arithmetic is idealised as exact rationals. -/
def raw_to_physical (raw : Int) (precision : ℚ) : ℚ :=
  (raw : ℚ) * precision

/-- The encode direction of the Temperature Scaler: climate.py line 207
computes `round(temperature / self._target_temperature_precision)`. -/
def physical_to_raw (physical : ℚ) (precision : ℚ) : Int :=
  pyRound (physical / precision)

/-- Python dict lookup `table[name]` / `table.get(name)` on a
string-keyed dict: the first entry with an equal key. -/
def dictLookup (table : Table) (name : String) : Option DpDef :=
  (table.find? (fun e => e.1 == name)).map Prod.snd

/-- Python dict lookup `d.get(k)` on a definition dict. -/
def lookupDp (d : DpDef) (k : Nat) : Option Value :=
  (d.find? (fun p => p.1 == k)).map Prod.snd

/-- The encoder loop of `async_set_hvac_mode` (climate.py lines
214-218) and `async_set_preset_mode` (lines 220-224), generic in the
table.  Returns the sequence of `set_dp` writes issued, as (dp_id,
value) pairs in issue order, together with the raised error if any:
an unknown name makes the subscript `table[name]` raise KeyError before
the loop starts, so no write is issued; a known name iterates the
definition's keys in declared order and writes `d.get(key)` for each. -/
def encodeTable (table : Table) (name : String) :
    List (Nat × Value) × Option String :=
  match dictLookup table name with
  | none => ([], some "KeyError")
  | some d =>
      ((d.map Prod.fst).filterMap (fun k => (lookupDp d k).map (fun v => (k, v))),
       none)

/-- `async_set_hvac_mode` of climate.py lines 214-218: the encoder run
against the built-in `modes` table. -/
def async_set_hvac_mode (hvac_mode : String) :
    List (Nat × Value) × Option String :=
  encodeTable modes hvac_mode

/-- `async_set_preset_mode` of climate.py lines 220-224: the encoder
run against the built-in `presets` table. -/
def async_set_preset_mode (preset_mode : String) :
    List (Nat × Value) × Option String :=
  encodeTable presets preset_mode

/- Helper lemmas about the decoder loop, shared by several claims. -/

/-- Unfolding the decoder loop over a concatenation of tables. -/
lemma decodeTable_append (t1 t2 : Table) (snap : Snapshot) (prev : Option String) :
    decodeTable (t1 ++ t2) snap prev = decodeTable t2 snap (decodeTable t1 snap prev) :=
  List.foldl_append _ _ _ _

/-- Unfolding the decoder loop over a cons cell. -/
lemma decodeTable_cons (e : String × DpDef) (t : Table) (snap : Snapshot)
    (prev : Option String) :
    decodeTable (e :: t) snap prev =
      decodeTable t snap (if matchesDef snap e.2 then some e.1 else prev) := rfl

/-- When no table entry matches, the decoder returns its accumulator
(the previously stored semantic value) unchanged. -/
lemma decodeTable_no_match (t : Table) (snap : Snapshot) (prev : Option String)
    (h : ∀ e ∈ t, matchesDef snap e.2 = false) :
    decodeTable t snap prev = prev := by
  induction t generalizing prev with
  | nil => rfl
  | cons e t ih =>
      rw [decodeTable_cons, h e (List.mem_cons_self _ _)]
      exact ih prev (fun x hx => h x (List.mem_cons_of_mem _ hx))

/-- Once the accumulator holds `some m`, it stays `some m` over any tail
whose matching entries are all named `m`. -/
lemma decodeTable_keep (t : Table) (snap : Snapshot) (m : String)
    (h : ∀ e ∈ t, matchesDef snap e.2 = true → e.1 = m) :
    decodeTable t snap (some m) = some m := by
  induction t with
  | nil => rfl
  | cons e t ih =>
      rw [decodeTable_cons]
      by_cases hm : matchesDef snap e.2 = true
      · rw [if_pos hm, h e (List.mem_cons_self _ _) hm]
        exact ih (fun x hx hmx => h x (List.mem_cons_of_mem _ hx) hmx)
      · rw [if_neg hm]
        exact ih (fun x hx hmx => h x (List.mem_cons_of_mem _ hx) hmx)

/-- When a table has a unique matching entry, the decoder resolves to
its name, whatever the previous value was. -/
lemma decodeTable_unique (t : Table) (snap : Snapshot) (prev : Option String)
    (m : String) (dm : DpDef) (hm : (m, dm) ∈ t)
    (hmatch : matchesDef snap dm = true)
    (huniq : ∀ e ∈ t, matchesDef snap e.2 = true → e = (m, dm)) :
    decodeTable t snap prev = some m := by
  obtain ⟨t1, t2, rfl⟩ := List.append_of_mem hm
  rw [decodeTable_append, decodeTable_cons, if_pos hmatch]
  exact decodeTable_keep t2 snap m
    (fun e he hme =>
      congrArg Prod.fst (huniq e (by simp [he]) hme))

/-- Two values of different types are Python-unequal unless the
bool/int coercion applies. -/
lemma pyEq_false_of_type_ne (w v : Value) (hty : typeOf w ≠ typeOf v)
    (hco : boolIntCoercionEq w v = false) : pyEq w v = false := by
  cases w <;> cases v <;> simp_all [pyEq, boolIntCoercionEq, typeOf]

/-- In a snapshot with no duplicate keys, the entry at a key is unique. -/
lemma assoc_nodup_val_eq {α : Type} (l : List (Nat × α)) (k : Nat) (a b : α)
    (hnd : (l.map Prod.fst).Nodup) (ha : (k, a) ∈ l) (hb : (k, b) ∈ l) :
    a = b := by
  induction l with
  | nil => cases ha
  | cons p rest ih =>
      simp only [List.map_cons, List.nodup_cons] at hnd
      rcases List.mem_cons.mp ha with ha' | ha' <;>
        rcases List.mem_cons.mp hb with hb' | hb'
      · exact congrArg Prod.snd (ha'.trans hb'.symm)
      · exact absurd (List.mem_map_of_mem Prod.fst hb') (by cases ha'; exact hnd.1)
      · exact absurd (List.mem_map_of_mem Prod.fst ha') (by cases hb'; exact hnd.1)
      · exact ih hnd.2 ha' hb'

/-- A definition pair whose expected value is Python-unequal to the
snapshot's value at that key is not found in the snapshot items. -/
lemma pairInSnapshot_false (snap : Snapshot) (dp : Nat) (v w : Value)
    (hs : (dp, some w) ∈ snap) (hnd : (snap.map Prod.fst).Nodup)
    (hne : pyEq w v = false) : pairInSnapshot snap (dp, v) = false := by
  rw [pairInSnapshot, List.any_eq_false]
  rintro ⟨k, ow⟩ hq
  simp only [Bool.and_eq_true, beq_iff_eq]
  rintro ⟨hk, hw⟩
  subst hk
  cases ow with
  | none => simp at hw
  | some w' =>
      have hw' : pyEq w' v = true := hw
      have heq : w' = w :=
        Option.some_inj.mp (assoc_nodup_val_eq snap k _ _ hnd hq hs)
      rw [heq, hne] at hw'
      exact Bool.false_ne_true hw'

/-- A single failing definition pair makes the whole entry a
non-match. -/
lemma matchesDef_false_of_pair (snap : Snapshot) (d : DpDef) (dp : Nat)
    (v : Value) (hd : (dp, v) ∈ d)
    (hfalse : pairInSnapshot snap (dp, v) = false) :
    matchesDef snap d = false := by
  rw [matchesDef, List.all_eq_false]
  exact ⟨(dp, v), hd, by simp [hfalse]⟩

/-- Python `round` is the identity on exact integers. -/
lemma pyRound_intCast (n : Int) : pyRound (n : ℚ) = n := by
  rw [pyRound]
  norm_num [Int.floor_intCast]

/-- Iterating a dict's keys and re-reading each key reproduces the
dict's (key, value) pairs, in declared order, when keys are unique. -/
lemma writes_of_def (d : DpDef) (hnd : (d.map Prod.fst).Nodup) :
    (d.map Prod.fst).filterMap (fun k => (lookupDp d k).map (fun v => (k, v))) = d := by
  induction d with
  | nil => rfl
  | cons p rest ih =>
      obtain ⟨k, v⟩ := p
      simp only [List.map_cons, List.nodup_cons] at hnd
      obtain ⟨hk, hnd'⟩ := hnd
      have hhead : lookupDp ((k, v) :: rest) k = some v := by
        simp [lookupDp, List.find?_cons]
      have hcongr : ∀ k' ∈ rest.map Prod.fst,
          (lookupDp ((k, v) :: rest) k').map (fun v' => (k', v')) =
            (lookupDp rest k').map (fun v' => (k', v')) := by
        intro k' hk'
        have hne : (k == k') = false :=
          beq_eq_false_iff_ne.mpr (fun h => hk (h ▸ hk'))
        simp [lookupDp, List.find?_cons, hne]
      rw [List.map_cons, List.filterMap_cons, hhead,
        List.filterMap_congr hcongr, ih hnd']
      rfl

/- Concrete inputs used by witnesses and counterexamples. -/

/-- A concrete device status: dp 1 false (power off), dp 5 true (eco). -/
def dpsOffEco : Nat → Option Value :=
  fun n => if n = 1 then some (Value.b false)
           else if n = 5 then some (Value.b true) else none

/-- The ambiguity-scenario device status of the spec's testable
properties: dp 1 true, dp 4 "1", dp 5 true. -/
def dpsAmbiguous : Nat → Option Value :=
  fun n => if n = 1 then some (Value.b true)
           else if n = 4 then some (Value.s "1")
           else if n = 5 then some (Value.b true) else none

/-- A freshly initialised climate state: all decoded fields `None`,
default precisions (current 0.1, target 1), as set by `__init__`. -/
def initState : ClimateState :=
  ⟨none, none, none, none, none, 1/10, 1⟩

/-- A state carrying previously decoded semantic values. -/
def prevState : ClimateState :=
  ⟨some HVAC_MODE_AUTO, some "Eco Off", some CURRENT_HVAC_HEAT,
   some 21, some 22, 1/10, 1⟩

/-- Claim C1: a DP snapshot that contains the full defining set of
exactly one mode of the mode table (and no other mode's full defining
set) makes `status_updated` set the semantic HVAC mode to that mode;
likewise, independently, for the preset table and the semantic preset.
The two tables are decoded by separate loops, so each half is
conditioned only on its own table's unique match. -/
theorem claim_C1_unique_match (dps : Nat → Option Value) (st : ClimateState) :
    (∀ m dm, (m, dm) ∈ modes →
      matchesDef (alldpsOf dps) dm = true →
      (∀ e ∈ modes, matchesDef (alldpsOf dps) e.2 = true → e = (m, dm)) →
      (status_updated dps st).hvac_mode = some m) ∧
    (∀ p pd, (p, pd) ∈ presets →
      matchesDef (alldpsOf dps) pd = true →
      (∀ e ∈ presets, matchesDef (alldpsOf dps) e.2 = true → e = (p, pd)) →
      (status_updated dps st).preset_mode = some p) :=
  ⟨fun m dm hm hmatch huniq => decodeTable_unique modes _ _ m dm hm hmatch huniq,
   fun p pd hp hpmatch hpuniq => decodeTable_unique presets _ _ p pd hp hpmatch hpuniq⟩

/-- A device status with dp 1 false and every other DP unknown: it
uniquely matches the "off" mode while matching no preset at all. -/
def dpsOffOnly : Nat → Option Value :=
  fun n => if n = 1 then some (Value.b false) else none

/-- Witness for claim C1: the mode half on a snapshot that uniquely
matches "off" and matches no preset, and the preset half on a snapshot
that uniquely matches "Eco On". -/
theorem claim_C1_unique_match_witness :
    (status_updated dpsOffOnly initState).hvac_mode = some HVAC_MODE_OFF ∧
    (status_updated dpsOffEco initState).preset_mode = some "Eco On" :=
  ⟨(claim_C1_unique_match dpsOffOnly initState).1 HVAC_MODE_OFF
      [(1, Value.b false)] (by decide) (by decide) (by decide),
   (claim_C1_unique_match dpsOffEco initState).2 "Eco On"
      [(5, Value.b true)] (by decide) (by decide) (by decide)⟩

/-- Counterexample to claim C2 as stated: the ambiguity snapshot
decoded against the built-in preset table resolves the preset to
"Eco On" (the name declared in climate.py), not to "eco-on" as the
claim asserts. -/
theorem claim_C2_preset_name_counterexample :
    (status_updated dpsAmbiguous initState).preset_mode = some "Eco On" ∧
    (status_updated dpsAmbiguous initState).preset_mode ≠ some "eco-on" := by
  decide

/-- Claim C2 (amended): a snapshot satisfying the defining sets of
several entries of a table resolves, without any error, to the last
matching entry in table iteration order; concretely the snapshot
dp 1 true, dp 4 "1", dp 5 true resolves the mode to "heat" and the
preset to "Eco On" (the built-in table's spelling of the spec's
eco-on). -/
theorem claim_C2_last_match (t1 t2 : Table) (m : String) (dm : DpDef)
    (snap : Snapshot) (prev : Option String)
    (h1 : matchesDef snap dm = true)
    (h2 : ∀ e ∈ t2, matchesDef snap e.2 = false) :
    decodeTable (t1 ++ (m, dm) :: t2) snap prev = some m ∧
    (status_updated dpsAmbiguous initState).hvac_mode = some HVAC_MODE_HEAT ∧
    (status_updated dpsAmbiguous initState).preset_mode = some "Eco On" := by
  refine ⟨?_, by decide, by decide⟩
  rw [decodeTable_append, decodeTable_cons, if_pos h1]
  exact decodeTable_no_match t2 snap (some m) h2

/-- Witness for the amended claim C2: the built-in mode table split
around its "heat" entry, on the ambiguity snapshot. -/
theorem claim_C2_last_match_witness :
    decodeTable ([(HVAC_MODE_OFF, [(1, Value.b false)])] ++
        (HVAC_MODE_HEAT, [(1, Value.b true), (4, Value.s "1")]) ::
        [(HVAC_MODE_AUTO, [(1, Value.b true), (4, Value.s "0")])])
      (alldpsOf dpsAmbiguous) none = some HVAC_MODE_HEAT ∧
    (status_updated dpsAmbiguous initState).hvac_mode = some HVAC_MODE_HEAT ∧
    (status_updated dpsAmbiguous initState).preset_mode = some "Eco On" :=
  claim_C2_last_match [(HVAC_MODE_OFF, [(1, Value.b false)])]
    [(HVAC_MODE_AUTO, [(1, Value.b true), (4, Value.s "0")])]
    HVAC_MODE_HEAT [(1, Value.b true), (4, Value.s "1")]
    (alldpsOf dpsAmbiguous) none (by decide) (by decide)

/-- Claim C9: when no entry of the mode table and no entry of the
preset table matches the snapshot, `status_updated` keeps the
previously stored semantic values instead of resetting them. -/
theorem claim_C9_no_match_keeps_previous (dps : Nat → Option Value)
    (st : ClimateState)
    (h1 : ∀ e ∈ modes, matchesDef (alldpsOf dps) e.2 = false)
    (h2 : ∀ e ∈ presets, matchesDef (alldpsOf dps) e.2 = false) :
    (status_updated dps st).hvac_mode = st.hvac_mode ∧
    (status_updated dps st).preset_mode = st.preset_mode :=
  ⟨decodeTable_no_match modes _ _ h1, decodeTable_no_match presets _ _ h2⟩

/-- Witness for claim C9: a device status with every DP unknown matches
nothing and leaves the stored mode and preset untouched. -/
theorem claim_C9_witness :
    (status_updated (fun _ => none) prevState).hvac_mode = prevState.hvac_mode ∧
    (status_updated (fun _ => none) prevState).preset_mode = prevState.preset_mode :=
  claim_C9_no_match_keeps_previous (fun _ => none) prevState (by decide) (by decide)

/-- Claim C3: for every integer raw value and every precision in
the configurable set 1, 0.5, 0.1, scaling the raw value to a physical
temperature (the decode path of `status_updated`) and converting back
with the rounding of `async_set_temperature` returns the original
integer.  Python float arithmetic is idealised as exact rationals. -/
theorem claim_C3_scaler_round_trip (raw : Int) (p : ℚ)
    (hp : p = 1 ∨ p = 1/2 ∨ p = 1/10) :
    physical_to_raw (raw_to_physical raw p) p = raw := by
  have hp0 : p ≠ 0 := by rcases hp with h | h | h <;> rw [h] <;> norm_num
  rw [physical_to_raw, raw_to_physical, mul_div_assoc, div_self hp0,
    mul_one, pyRound_intCast]

/-- Witness for claim C3: raw 215 at tenth-degree precision survives
the round trip. -/
theorem claim_C3_witness :
    physical_to_raw (raw_to_physical 215 (1/10)) (1/10) = 215 :=
  claim_C3_scaler_round_trip 215 (1/10) (Or.inr (Or.inr rfl))

/-- Claim C4: in heat mode, with decoded current temperature c and
target t and current-reading precision p, reading `hvac_action` yields
the heating action when c < t - p, the previously stored action
(state unchanged) when c = t - p exactly, and the idle action
(CURRENT_HVAC_OFF) when c > t - p; the read value is also stored back
into the state. -/
theorem claim_C4_hysteresis (st : ClimateState) (c t : ℚ)
    (hm : st.hvac_mode = some HVAC_MODE_HEAT)
    (hc : st.current_temperature = some c)
    (ht : st.target_temperature = some t) :
    (c < t - st.precision →
      hvac_action st =
        Except.ok (some CURRENT_HVAC_HEAT,
          { st with hvac_action := some CURRENT_HVAC_HEAT })) ∧
    (c = t - st.precision →
      hvac_action st = Except.ok (st.hvac_action, st)) ∧
    (t - st.precision < c →
      hvac_action st =
        Except.ok (some CURRENT_HVAC_OFF,
          { st with hvac_action := some CURRENT_HVAC_OFF })) := by
  obtain ⟨mo, pr, ac, ct, tt, p, tp⟩ := st
  subst hm; subst hc; subst ht
  unfold hvac_action
  simp only []
  refine ⟨fun h => ?_, fun h => ?_, fun h => ?_⟩
  · have h2 : ¬ (c = t - p) := ne_of_lt h
    have h3 : ¬ (c + p > t) := by simp only at h ⊢; linarith
    simp only at h
    simp only [if_true, if_pos h, if_neg h2, if_neg h3]
  · simp only at h
    have h1 : ¬ (c < t - p) := by rw [h]; exact lt_irrefl _
    have h3 : ¬ (c + p > t) := by rw [h]; intro hcon; linarith
    simp only [if_true, if_neg h1, if_pos h, if_neg h3]
    by_cases hH : ac = some CURRENT_HVAC_HEAT
    · simp [hH, CURRENT_HVAC_HEAT, CURRENT_HVAC_OFF]
    · simp only [if_neg hH]
      by_cases hO : ac = some CURRENT_HVAC_OFF
      · simp [hO]
      · simp only [if_neg hO, if_true]
  · simp only at h
    have h1 : ¬ (c < t - p) := by linarith
    have h2 : ¬ (c = t - p) := ne_of_gt h
    have h3 : c + p > t := by linarith
    simp only [if_true, if_neg h1, if_neg h2, if_pos h3]

/-- The state used in the claim C4 witness: heat mode, prior action
idle, current 18, target 20, precision 1. -/
def stHeat18 : ClimateState :=
  ⟨some HVAC_MODE_HEAT, none, some CURRENT_HVAC_OFF, some 18, some 20, 1, 1⟩

/-- Witness for claim C4: the spec's boundary example c = 18, t = 20,
p = 1 engages heating. -/
theorem claim_C4_witness :
    hvac_action stHeat18 =
      Except.ok (some CURRENT_HVAC_HEAT,
        { stHeat18 with hvac_action := some CURRENT_HVAC_HEAT }) :=
  (claim_C4_hysteresis stHeat18 18 20 rfl rfl rfl).1 (by norm_num [stHeat18])

/-- Claim C5: whenever the stored HVAC mode is not "heat", reading
`hvac_action` performs no hysteresis computation: it returns the
previously stored action and leaves the state untouched, whatever the
temperatures are. -/
theorem claim_C5_not_heat_frame (st : ClimateState)
    (h : st.hvac_mode ≠ some HVAC_MODE_HEAT) :
    hvac_action st = Except.ok (st.hvac_action, st) := by
  unfold hvac_action
  rw [if_neg h]

/-- The state used in the claim C5 witness: auto mode with
temperatures that would otherwise force idle. -/
def stAuto : ClimateState :=
  ⟨some HVAC_MODE_AUTO, none, some CURRENT_HVAC_HEAT, some 25, some 20, 1, 1⟩

/-- Witness for claim C5: in auto mode the stored action is returned
unchanged even though current temperature exceeds target. -/
theorem claim_C5_witness :
    hvac_action stAuto = Except.ok (stAuto.hvac_action, stAuto) :=
  claim_C5_not_heat_frame stAuto (by decide)

/-- Claim C10: in heat mode with either decoded temperature still
`None` (the initial value from `__init__`), reading `hvac_action`
raises a TypeError from the comparison instead of returning the
retained action. -/
theorem claim_C10_none_temperature_raises (st : ClimateState)
    (hm : st.hvac_mode = some HVAC_MODE_HEAT)
    (h : st.current_temperature = none ∨ st.target_temperature = none) :
    hvac_action st =
      Except.error "TypeError: comparison not supported with NoneType" := by
  unfold hvac_action
  rw [hm, if_pos rfl]
  rcases h with h | h
  · rw [h]
  · rw [h]; cases st.current_temperature <;> rfl

/-- The state used in the claim C10 witness: heat mode decoded but no
temperature decoded yet. -/
def stHeatFresh : ClimateState :=
  ⟨some HVAC_MODE_HEAT, none, none, none, none, 1/10, 1⟩

/-- Witness for claim C10: heat mode with both temperatures unset makes
reading `hvac_action` raise. -/
theorem claim_C10_witness :
    hvac_action stHeatFresh =
      Except.error "TypeError: comparison not supported with NoneType" :=
  claim_C10_none_temperature_raises stHeatFresh rfl (Or.inl rfl)

/-- Claim C6: for every name present in a table (with the distinct keys
of a Python dict definition), the encoder issues exactly one device
write per (dp_id, value) pair of that entry's definition, as separate
writes in table-declared order and with no error; in particular
encoding "heat" against the built-in `modes` table issues exactly
(1, true) then (4, "1"). -/
theorem claim_C6_encoder_determinism (table : Table) (name : String)
    (d : DpDef) (h1 : dictLookup table name = some d)
    (h2 : (d.map Prod.fst).Nodup) :
    encodeTable table name = (d, none) ∧
    async_set_hvac_mode "heat" = ([(1, Value.b true), (4, Value.s "1")], none) := by
  refine ⟨?_, by decide⟩
  simp only [encodeTable, h1]
  rw [writes_of_def d h2]

/-- Witness for claim C6: the built-in "heat" entry. -/
theorem claim_C6_witness :
    encodeTable modes "heat" = ([(1, Value.b true), (4, Value.s "1")], none) ∧
    async_set_hvac_mode "heat" = ([(1, Value.b true), (4, Value.s "1")], none) :=
  claim_C6_encoder_determinism modes "heat"
    [(1, Value.b true), (4, Value.s "1")] (by decide) (by decide)

/-- Claim C7: a mode (resp. preset) name absent from the corresponding
table makes `async_set_hvac_mode` (resp. `async_set_preset_mode`) fail
with a KeyError — the subscript raises before the loop starts — and
issue zero device writes. -/
theorem claim_C7_unknown_name (name : String) :
    (dictLookup modes name = none →
      async_set_hvac_mode name = ([], some "KeyError")) ∧
    (dictLookup presets name = none →
      async_set_preset_mode name = ([], some "KeyError")) := by
  constructor <;> intro h <;>
    simp only [async_set_hvac_mode, async_set_preset_mode, encodeTable, h]

/-- Witness for claim C7: the name "cool" is absent from the mode
table, so requesting it writes nothing and raises KeyError. -/
theorem claim_C7_witness :
    async_set_hvac_mode "cool" = ([], some "KeyError") :=
  (claim_C7_unknown_name "cool").1 (by decide)

/-- Counterexample to claim C8 as stated: the snapshot value int 1 at
dp 1 differs in type from the expected bool true of the "heat" entry,
yet Python's `1 == True` makes the entry match — it is not skipped, and
the decoder resolves to "heat". -/
theorem claim_C8_type_mismatch_counterexample :
    typeOf (Value.i 1) ≠ typeOf (Value.b true) ∧
    matchesDef [(1, some (Value.i 1)), (4, some (Value.s "1")), (5, none)]
      [(1, Value.b true), (4, Value.s "1")] = true ∧
    decodeTable modes [(1, some (Value.i 1)), (4, some (Value.s "1")), (5, none)]
      none = some HVAC_MODE_HEAT := by
  decide

/-- Claim C8 (amended): a snapshot value whose type differs from a
table entry's expected value at the same dp_id makes that entry a
non-match (skipped, with no error raised), except when the two values
are a bool and an int identified by Python's coercion (true with 1,
false with 0); in particular a string where a bool is expected is
always a non-match. -/
theorem claim_C8_type_mismatch_skips (snap : Snapshot) (d : DpDef)
    (dp : Nat) (v w : Value) (hd : (dp, v) ∈ d) (hs : (dp, some w) ∈ snap)
    (hnd : (snap.map Prod.fst).Nodup)
    (hty : typeOf w ≠ typeOf v) (hco : boolIntCoercionEq w v = false) :
    matchesDef snap d = false :=
  matchesDef_false_of_pair snap d dp v hd
    (pairInSnapshot_false snap dp v w hs hnd
      (pyEq_false_of_type_ne w v hty hco))

/-- Witness for the amended claim C8: string "1" at dp 1 where bool
true is expected keeps the "heat" entry from matching. -/
theorem claim_C8_witness :
    matchesDef [(1, some (Value.s "1")), (4, some (Value.s "1")), (5, none)]
      [(1, Value.b true), (4, Value.s "1")] = false :=
  claim_C8_type_mismatch_skips
    [(1, some (Value.s "1")), (4, some (Value.s "1")), (5, none)]
    [(1, Value.b true), (4, Value.s "1")] 1 (Value.b true) (Value.s "1")
    (by decide) (by decide) (by decide) (by decide) (by decide)
